import Mathlib

/-!
# Verification of the homebridge-rain-status polling and derivation core

Shallow embedding of the JavaScript sources of the repository.  The
repository contains several drifted variants of the same platform:

* the platform-polling variant of `src/index.js` (first class in the file),
  called `IndexPlatform` below;
* the per-accessory variant (second class of `src/index.js`, same code as the
  first class of `src/unnamed/part_001`), called `Accessory` below;
* the sensor-platform variant of `src/unnamed/part_001` (second and third
  classes, the so-called Google Nest pattern), called `Nest` below.

Machine floats of JavaScript are modelled with rationals; every numeric
example in this file is chosen so that the compared sums are exact in both
binary64 and rational arithmetic, so no comparison in any theorem depends on
rounding.  Strings are modelled with the Lean `String` type; the inputs used
are ASCII, where the JavaScript `toLowerCase` agrees with a per-character
`Char.toLower` map.
-/

/-- Per-character lower casing, the ASCII fragment of the JavaScript
`String.prototype.toLowerCase` used by every variant. -/
def lowerStr (s : String) : String :=
  String.mk (s.data.map Char.toLower)

/-- Is `needle` a prefix of `hay`, on character lists. -/
def isPrefixChars : List Char → List Char → Bool
  | [], _ => true
  | _ :: _, [] => false
  | a :: as, b :: bs => a == b && isPrefixChars as bs

/-- Does `hay` contain `needle` as a contiguous substring; the semantics of
the JavaScript `hay.includes(needle)` on character lists. -/
def containsChars (needle : List Char) : List Char → Bool
  | [] => needle.isEmpty
  | b :: bs => isPrefixChars needle (b :: bs) || containsChars needle bs

/-- JavaScript `hay.includes(needle)` on strings. -/
def strIncludes (hay needle : String) : Bool :=
  containsChars needle.data hay.data

/-- The fixed precipitation vocabulary of `checkCurrentRain` in the
per-accessory and Nest variants (`weatherTerms` in the source, duplicate
entry for drizzle kept as written). -/
def weatherTerms : List String :=
  ["rain", "drizzle", "shower", "precipitation",
   "mist", "fog", "drizzle", "light rain",
   "ra", "dz", "shra", "fzra", "br", "fg"]

/-- Error taxonomy of a single fetch attempt, read off the catch block of
`checkCurrentRain`: `transport` is the `error.request` case (no response),
`status code` is the `error.response` case, and the two validation errors
are the two `throw new Error` sites of the success path. -/
inductive FetchErr
  | transport
  | status (code : Nat)
  | invalidStructure
  | noDescription
deriving DecidableEq, Repr

/-- One fetch-and-parse of the latest-observation endpoint, per-accessory and
Nest variants of `checkCurrentRain`.  The payload is modelled by its only
fields the code reads: `none` stands for a response without `properties`
(`Invalid API response structure`), `some none` for properties without a
`textDescription`.  The source computes
`properties.textDescription?.toLowerCase() || ''` and throws
`No weather description available` when the result is falsy, otherwise
derives `weatherTerms.some(term => weatherDescription.includes(term))`. -/
def processObservation (payload : Option (Option String)) : Except FetchErr Bool :=
  match payload with
  | none => .error .invalidStructure
  | some td =>
    let weatherDescription := (td.map lowerStr).getD ""
    if weatherDescription = "" then .error .noDescription
    else .ok (weatherTerms.any (fun term => strIncludes weatherDescription term))

/-- A daily value of the ACIS response: `null`, a value that `parseFloat`
turns into a number, or a present value on which `parseFloat` yields NaN. -/
inductive AcisValue
  | null
  | num (q : ℚ)
  | invalid
deriving DecidableEq, Repr

/-- The accumulation loop of `checkPreviousRain` shared by the IndexPlatform
and per-accessory variants: rows are scanned in order, null and non-numeric
values are skipped, `previousDayRain` is assigned on a row whose date equals
the yesterday string, `twoDayRain` is summed over rows whose date equals the
yesterday or the day-before string.  Returns
(previousDayRain, twoDayRain). -/
def accumRain (yStr dbyStr : String) (rows : List (String × AcisValue)) : ℚ × ℚ :=
  rows.foldl
    (fun acc row =>
      match row.2 with
      | .null => acc
      | .invalid => acc
      | .num q =>
          let p := if row.1 = yStr then q else acc.1
          let t := if row.1 = yStr ∨ row.1 = dbyStr then acc.2 + q else acc.2
          (p, t))
    (0, 0)

/-- The accumulation loop of the Nest variant of `checkPreviousRain`, which
additionally sums a three-day total.  Returns
(previousDayRain, twoDayRain, threeDayRain). -/
def accumRainNest (yStr dbyStr tdaStr : String) (rows : List (String × AcisValue)) :
    ℚ × ℚ × ℚ :=
  rows.foldl
    (fun acc row =>
      match row.2 with
      | .null => acc
      | .invalid => acc
      | .num q =>
          let p := if row.1 = yStr then q else acc.1
          let t := if row.1 = yStr ∨ row.1 = dbyStr then acc.2.1 + q else acc.2.1
          let th := if row.1 = yStr ∨ row.1 = dbyStr ∨ row.1 = tdaStr then
              acc.2.2 + q else acc.2.2
          (p, t, th))
    (0, 0, 0)

/-- Threshold decision of the IndexPlatform variant of `checkPreviousRain`
(`src/index.js` first class): `previousDayExceeded` is inclusive on
`previousDayRain`; `twoDayExceeded` compares `previousDayRain + twoDayRain`
against the two-day threshold, where `twoDayRain` already includes the
yesterday amount; the contact state is 1 when either holds. -/
def contactStateIndexPlatform (th1 th2 : ℚ) (yStr dbyStr : String)
    (rows : List (String × AcisValue)) : Nat :=
  let a := accumRain yStr dbyStr rows
  let previousDayExceeded := decide (a.1 ≥ th1)
  let twoDayExceeded := decide (a.1 + a.2 ≥ th2)
  if previousDayExceeded || twoDayExceeded then 1 else 0

/-- Threshold decision of the per-accessory variant of `checkPreviousRain`
(`src/unnamed/part_001` first class): both comparisons are strict and each
day is counted once in the two-day sum. -/
def newStateAccessory (th1 th2 : ℚ) (yStr dbyStr : String)
    (rows : List (String × AcisValue)) : Bool :=
  let a := accumRain yStr dbyStr rows
  decide (a.1 > th1) || decide (a.2 > th2)

/-- Threshold decision of the Nest variant of `checkPreviousRain`: inclusive
comparisons, each day counted once, result coded as 0 or 1. -/
def contactStateNest (th1 th2 : ℚ) (yStr dbyStr tdaStr : String)
    (rows : List (String × AcisValue)) : Nat :=
  let a := accumRainNest yStr dbyStr tdaStr rows
  if decide (a.1 ≥ th1) || decide (a.2.1 ≥ th2) then 1 else 0

/-- Modelled from the spec, for comparison only: the claimed derivation rule
for the RecentRainfall state, given yesterday and day-before amounts.  State
true if any window meets or exceeds its threshold, inclusive comparison,
two-day sum counting each day once. -/
def derivedStateClaim (yAmt dbAmt th1 th2 : ℚ) : Bool :=
  decide (yAmt ≥ th1) || decide (yAmt + dbAmt ≥ th2)

/-! ## Retry policy (per-accessory variant of checkCurrentRain)

The source retries recursively: the catch block classifies the error only
for logging, then unconditionally runs
`if (retryCount < 3) { delay = Math.pow(2, retryCount) * 1000; ...; return
this.checkCurrentRain(accessory, stationId, retryCount + 1); }`.
The recursion is embedded with an explicit fuel argument equal to
`3 - retryCount`, so the guard `retryCount < 3` of the source is exactly
`fuel > 0` along every reachable call (started at retryCount 0, fuel 3). -/

/-- Outcome of one fetch attempt: the derived boolean, or an error. -/
inductive AttemptOutcome
  | ok (isRaining : Bool)
  | err (e : FetchErr)
deriving DecidableEq, Repr

/-- Result of the whole retry-wrapped fetch, remembering the index of the
last attempt made (counting from 0). -/
inductive RunResult
  | ok (isRaining : Bool) (attemptIndex : Nat)
  | exhausted (e : FetchErr) (attemptIndex : Nat)
deriving DecidableEq, Repr

/-- The backoff of the source before the retry that follows failed attempt
`retryCount`: `Math.pow(2, retryCount) * 1000` milliseconds. -/
def retryDelayMs (retryCount : Nat) : Nat := 2 ^ retryCount * 1000

/-- The retry recursion of `checkCurrentRain`: attempt `r` runs; on error,
while retries remain, the delay for attempt `r` is recorded and attempt
`r + 1` runs.  Returns the result together with the list of backoff delays
that were slept. -/
def runRetries (outcomes : Nat → AttemptOutcome) : Nat → Nat → RunResult × List Nat
  | r, 0 =>
    match outcomes r with
    | .ok b => (.ok b r, [])
    | .err e => (.exhausted e r, [])
  | r, fuel + 1 =>
    match outcomes r with
    | .ok b => (.ok b r, [])
    | .err _ =>
        let rest := runRetries outcomes (r + 1) fuel
        (rest.1, retryDelayMs r :: rest.2)

/-- The retry-wrapped fetch as called from the scheduler: retryCount 0,
at most 3 retries. -/
def checkCurrentRainRun (outcomes : Nat → AttemptOutcome) : RunResult × List Nat :=
  runRetries outcomes 0 3

/-- Total attempt count of a run that started at retryCount 0. -/
def attemptsOf : RunResult → Nat
  | .ok _ r => r + 1
  | .exhausted _ r => r + 1

/-! ## Poll setup (startCurrentRainPolling / startPreviousRainPolling)

`checkInterval = (config.check_interval || 5) * 60 * 1000` for the current
source and `(config.check_interval || 60) * 60 * 1000` for the previous
source; `setInterval` is armed, the interval id is stored, and an immediate
initial check fires.  No validation of the value occurs anywhere. -/

/-- JavaScript `v || d` for a possibly-missing numeric config entry:
a missing or zero (falsy) value yields the default. -/
def jsOrDefault (v : Option ℚ) (d : ℚ) : ℚ :=
  match v with
  | none => d
  | some x => if x = 0 then d else x

/-- What the setup of one polling job produces. -/
structure PollJobSetup where
  intervalMs : ℚ
  jobStored : Bool
  immediateFirstCheck : Bool
deriving DecidableEq, Repr

/-- `startCurrentRainPolling`: interval in minutes defaulted to 5, scaled to
milliseconds, job always created with an immediate first check. -/
def startCurrentRainPollingModel (checkIntervalMin : Option ℚ) : PollJobSetup :=
  { intervalMs := jsOrDefault checkIntervalMin 5 * 60 * 1000
    jobStored := true
    immediateFirstCheck := true }

/-- `startPreviousRainPolling`: interval in minutes defaulted to 60, scaled
to milliseconds, job always created with an immediate first check. -/
def startPreviousRainPollingModel (checkIntervalMin : Option ℚ) : PollJobSetup :=
  { intervalMs := jsOrDefault checkIntervalMin 60 * 60 * 1000
    jobStored := true
    immediateFirstCheck := true }

/-! ## Fetch-and-derive cycles of the Nest platform variant -/

/-- Platform state touched by the Nest variant of `checkPreviousRain`.
`notifCount` counts `updateAllAccessories` calls (the observer
notifications); `timerArmed` stands for the interval registered in
`pollingIntervals`; `logs` counts error log lines. -/
structure PrevPlatformState where
  previousRainState : Nat
  timerArmed : Bool
  notifCount : Nat
  logs : Nat
deriving DecidableEq, Repr

/-- One fetch-and-derive cycle of the Nest variant of `checkPreviousRain`.
On a fetch error the catch block only logs; the stored state, the
notification count and the timer are untouched.  On success the state is
derived, stored unconditionally, and the accessories are notified exactly
when the value changed. -/
def prevCycleNest (st : PrevPlatformState) (th1 th2 : ℚ) (yStr dbyStr tdaStr : String)
    (fetch : Except FetchErr (List (String × AcisValue))) : PrevPlatformState :=
  match fetch with
  | .error _ => { st with logs := st.logs + 1 }
  | .ok rows =>
      let newState := contactStateNest th1 th2 yStr dbyStr tdaStr rows
      { st with
        previousRainState := newState
        notifCount := st.notifCount + (if st.previousRainState ≠ newState then 1 else 0) }

/-- A sequence of scheduled cycles: the interval timer keeps firing and every
tick runs one cycle, regardless of earlier failures (each tick has its own
catch). -/
def runPrevCycles (th1 th2 : ℚ) (yStr dbyStr tdaStr : String)
    (st : PrevPlatformState) (fetches : List (Except FetchErr (List (String × AcisValue)))) :
    PrevPlatformState :=
  fetches.foldl (fun s f => prevCycleNest s th1 th2 yStr dbyStr tdaStr f) st

/-- Platform state touched by the Nest variant of `checkCurrentRain`. -/
structure CurrentPlatformState where
  currentRainState : Bool
  notifCount : Nat
deriving DecidableEq, Repr

/-- The store-and-notify tail of one successful Nest `checkCurrentRain`
cycle, given the derived `isRaining`: the state is stored unconditionally;
`updateAllAccessories` runs exactly when `previousState !== isRaining`. -/
def currentStepNest (st : CurrentPlatformState) (isRaining : Bool) : CurrentPlatformState :=
  { currentRainState := isRaining
    notifCount := st.notifCount + (if st.currentRainState != isRaining then 1 else 0) }

/-- A full Nest `checkCurrentRain` cycle from the raw payload: a failed fetch
or validation is caught and changes nothing. -/
def currentCycleNest (st : CurrentPlatformState) (payload : Option (Option String)) :
    CurrentPlatformState :=
  match processObservation payload with
  | .error _ => st
  | .ok isRaining => currentStepNest st isRaining

/-- Consecutive successful cycles, given the derived values. -/
def runCurrentDerivedNest (st : CurrentPlatformState) (derivs : List Bool) :
    CurrentPlatformState :=
  derivs.foldl currentStepNest st

/-- Modelled from the spec, for comparison only: the notification count the
claim predicts, where the stored state starts as none and the first
successful cycle always notifies. -/
def claimNotifCount : Option Bool → List Bool → Nat
  | _, [] => 0
  | none, d :: rest => 1 + claimNotifCount (some d) rest
  | some s, d :: rest => (if s != d then 1 else 0) + claimNotifCount (some d) rest

/-! ## Stop semantics (unload and in-flight cycles)

`unload` only runs `clearInterval` on every stored interval id; nothing sets
a flag that a running `checkCurrentRain` would consult, and the code after
its `await` (`src/index.js` lines 507 to 516) updates the characteristic and
notifies with no check that the platform is still loaded.  The behaviour is
embedded as a step function over events: a timer tick (which starts a cycle
only while the timer is armed), the stop request (which only disarms the
timer), and the completion of an in-flight cycle (which applies its result
unconditionally). -/

/-- Scheduler state: the timer, whether a fetch-plus-retry cycle is in
flight, the stored boolean state, and the notification count. -/
structure SchedState where
  timerArmed : Bool
  inFlight : Bool
  storedOn : Bool
  notifCount : Nat
deriving DecidableEq, Repr

/-- Events the scheduler reacts to. -/
inductive SchedEvent
  | tick
  | stop
  | complete (derived : Bool)
deriving DecidableEq, Repr

/-- One scheduler step, read off the source as described above. -/
def schedStep (s : SchedState) : SchedEvent → SchedState
  | .tick => if s.timerArmed then { s with inFlight := true } else s
  | .stop => { s with timerArmed := false }
  | .complete d =>
      if s.inFlight then
        { s with
          inFlight := false
          storedOn := d
          notifCount := s.notifCount + (if s.storedOn != d then 1 else 0) }
      else s

/-- Run a whole event trace. -/
def schedRun (s : SchedState) (evs : List SchedEvent) : SchedState :=
  evs.foldl schedStep s

/-! ## Date arithmetic of checkPreviousRain

Timestamps are minutes since the epoch; a calendar day is its day number
(the YYYY-MM-DD formatting is a bijection between day numbers and date
strings, so day numbers are compared).  A fixed UTC offset `tz` in minutes
models the zone (no DST transition near the instants considered, which is
also what `setDate(getDate() - 1)` assumes).

IndexPlatform variant (`src/index.js` lines 225 to 232):
`yesterday.setDate(today.getDate() - 1)` shifts the timestamp by exactly one
day, and `toISOString().split('T')[0]` then formats the UTC calendar day of
the shifted timestamp.

Nest variant (`src/unnamed/part_001` lines 721 to 739): dates are built from
local components (`getFullYear`, `getMonth`, `getDate`) and formatted by
`formatLocalDate`, so the result is a local calendar day. -/

/-- UTC day number of a timestamp in minutes (floor division). -/
def utcDayOfMin (ts : Int) : Int := Int.fdiv ts 1440

/-- Local day number of a timestamp under a fixed offset in minutes. -/
def localDayOfMin (ts tz : Int) : Int := Int.fdiv (ts + tz) 1440

/-- The (sdate, edate) day numbers the IndexPlatform variant requests:
UTC days of the timestamp shifted by two days and by one day. -/
def prevRainDatesLegacy (ts : Int) : Int × Int :=
  (utcDayOfMin (ts - 2880), utcDayOfMin (ts - 1440))

/-- The (sdate, edate) day numbers the Nest variant requests: local days
three before and one before the local today. -/
def prevRainDatesLocal (ts tz : Int) : Int × Int :=
  (localDayOfMin ts tz - 3, localDayOfMin ts tz - 1)

/-! ## Leftover testing overrides (sensor-platform variants)

In the IndexPlatform variant, `checkCurrentRain` assigns the derived value
to `this.currentRainState` and immediately afterwards runs the block marked
TESTING that assigns `false`; `checkPreviousRain` likewise assigns the
computed contact state and then `1`.  The per-accessory sensor variant of
part_001 does the same (`false` and `true`).  The third variant hardcodes
the accessory getters.  Each function below returns the pair
(value of the first assignment, final value after the override). -/

/-- IndexPlatform `checkCurrentRain` state writes: the derivation tests
whether the forecast `shortForecast`, lower-cased, includes the single word
rain; the TESTING override then forces `false`. -/
def checkCurrentRainLegacyWrites (shortForecast : Option String) : Bool × Bool :=
  let isRaining :=
    match shortForecast with
    | some s => strIncludes (lowerStr s) "rain"
    | none => false
  (isRaining, false)

/-- IndexPlatform `checkPreviousRain` state writes: the computed contact
state, then the TESTING override `1`. -/
def checkPreviousRainLegacyWrites (th1 th2 : ℚ) (yStr dbyStr : String)
    (rows : List (String × AcisValue)) : Nat × Nat :=
  (contactStateIndexPlatform th1 th2 yStr dbyStr rows, 1)

/-- Sensor per-accessory `checkCurrentRain` state writes, `none` when the
fetch fails before any write. -/
def checkCurrentRainAccessoryWrites (payload : Option (Option String)) :
    Option (Bool × Bool) :=
  match processObservation payload with
  | .error _ => none
  | .ok isRaining => (isRaining, false)

/-- Sensor per-accessory `checkPreviousRain` state writes: the strict
threshold state, then the TESTING override `true`. -/
def checkPreviousRainAccessoryWrites (th1 th2 : ℚ) (yStr dbyStr : String)
    (rows : List (String × AcisValue)) : Bool × Bool :=
  (newStateAccessory th1 th2 yStr dbyStr rows, true)

/-- The hardcoded getter `getCurrentRainState` of the third variant of
part_001: reads the platform state into a local and returns the constant
test value `true`. -/
def getCurrentRainStateTest (platformCurrentRainState : Bool) : Bool :=
  let actualState := platformCurrentRainState
  let testState := true
  testState

/-- The hardcoded getter `getPreviousRainState` of the third variant of
part_001: reads the platform state into a local and returns the constant
test value `1`. -/
def getPreviousRainStateTest (platformPreviousRainState : Nat) : Nat :=
  let actualState := platformPreviousRainState
  let testState := 1
  testState

/-! # Claim theorems -/

/-! ## C1: RecentRainfall window derivation -/

lemma accumRain_pair (a b : ℚ) (y dby : String) (h : dby ≠ y) :
    accumRain y dby [(dby, .num a), (y, .num b)] = (b, a + b) := by
  simp [accumRain, h]

lemma accumRainNest_pair (a b : ℚ) (y dby tda : String) (h : dby ≠ y) :
    accumRainNest y dby tda [(dby, .num a), (y, .num b)] = (b, a + b, a + b) := by
  simp [accumRainNest, h]

/-- C1 counterexample: the claim asserts that the two-day window sum compared
against the two-day threshold is yesterday plus the day before, each counted
once, with inclusive comparison.  In the IndexPlatform variant of
checkPreviousRain the comparison is `previousDayRain + twoDayRain >=
twoDayThreshold` where `twoDayRain` already contains yesterday, so yesterday
is counted twice: with yesterday 0.05, day before 0.05, previousDay
threshold 1 and twoDay threshold 0.15, the code reports the threshold met
(state 1) although the claimed rule gives false (0.05 + 0.05 = 0.10 <
0.15). -/
theorem recentRainfall_twoDay_doubleCount_cex :
    contactStateIndexPlatform 1 (3/20) "1999-01-02" "1999-01-01"
        [("1999-01-01", .num (1/20)), ("1999-01-02", .num (1/20))] = 1
    ∧ derivedStateClaim (1/20) (1/20) 1 (3/20) = false := by
  constructor
  · norm_num [contactStateIndexPlatform, accumRain]
  · norm_num [derivedStateClaim]

/-- C1 amended: on the quoted series (yesterday 0.05, day before 0.08,
thresholds 0.1 and 0.1) every variant derives true.  In general, for a
two-row series in date order: the Nest platform variant implements exactly
the claimed rule (inclusive comparisons, each day counted once); the
IndexPlatform variant uses inclusive comparisons but its two-day test
compares yesterday twice plus the day before against the threshold; the
per-accessory variant counts each day once but compares strictly. -/
theorem recentRainfall_windows_amended :
    (contactStateNest (1/10) (1/10) "2024-01-09" "2024-01-08" "2024-01-07"
        [("2024-01-08", .num (2/25)), ("2024-01-09", .num (1/20))] = 1
      ∧ contactStateIndexPlatform (1/10) (1/10) "2024-01-09" "2024-01-08"
        [("2024-01-08", .num (2/25)), ("2024-01-09", .num (1/20))] = 1
      ∧ newStateAccessory (1/10) (1/10) "2024-01-09" "2024-01-08"
        [("2024-01-08", .num (2/25)), ("2024-01-09", .num (1/20))] = true)
    ∧ (∀ (a b th1 th2 : ℚ) (y dby tda : String), dby ≠ y →
        contactStateNest th1 th2 y dby tda [(dby, .num a), (y, .num b)]
          = if derivedStateClaim b a th1 th2 then 1 else 0)
    ∧ (∀ (a b th1 th2 : ℚ) (y dby : String), dby ≠ y →
        contactStateIndexPlatform th1 th2 y dby [(dby, .num a), (y, .num b)]
          = if (decide (b ≥ th1) || decide (b + (a + b) ≥ th2)) then 1 else 0)
    ∧ (∀ (a b th1 th2 : ℚ) (y dby : String), dby ≠ y →
        newStateAccessory th1 th2 y dby [(dby, .num a), (y, .num b)]
          = (decide (b > th1) || decide (a + b > th2))) := by
  refine ⟨⟨?_, ?_, ?_⟩, ?_, ?_, ?_⟩
  · norm_num [contactStateNest, accumRainNest]
  · norm_num [contactStateIndexPlatform, accumRain]
  · norm_num [newStateAccessory, accumRain]
  · intro a b th1 th2 y dby tda h
    rw [contactStateNest, accumRainNest_pair a b y dby tda h, derivedStateClaim]
    simp [add_comm]
  · intro a b th1 th2 y dby h
    rw [contactStateIndexPlatform, accumRain_pair a b y dby h]
  · intro a b th1 th2 y dby h
    rw [newStateAccessory, accumRain_pair a b y dby h]

theorem recentRainfall_windows_amended_witness :
    contactStateNest 1 2 "B" "A" "C" [("A", .num 1), ("B", .num 2)]
      = if derivedStateClaim 2 1 1 2 then 1 else 0 :=
  recentRainfall_windows_amended.2.1 1 2 1 2 "B" "A" "C" (by decide)

/-! ## C2: CurrentConditions derivation -/

/-- C2: any observation whose description contains the phrase light rain
after lower-casing derives true; the description Sunny derives false; a
payload with a missing description field makes the fetch fail with the
no-description error, and the corresponding cycle changes neither the stored
state nor the notification count; and in general a derived state is true
exactly when the lower-cased description contains some term of the fixed
vocabulary as a substring. -/
theorem currentConditions_derivation :
    (∀ td : String, strIncludes (lowerStr td) "light rain" = true →
        processObservation (some (some td)) = .ok true)
    ∧ processObservation (some (some "Sunny")) = .ok false
    ∧ processObservation (some none) = .error .noDescription
    ∧ (∀ st : CurrentPlatformState, currentCycleNest st (some none) = st)
    ∧ (∀ (td : String) (b : Bool), processObservation (some (some td)) = .ok b →
        (b = true ↔ ∃ t ∈ weatherTerms, strIncludes (lowerStr td) t = true)) := by
  refine ⟨?_, rfl, rfl, fun st => rfl, ?_⟩
  · intro td h
    by_cases he : lowerStr td = ""
    · rw [he] at h
      exact absurd h (by decide)
    · simp only [processObservation, Option.map_some', Option.getD_some, if_neg he,
        Except.ok.injEq]
      exact List.any_eq_true.mpr ⟨"light rain", by decide, h⟩
  · intro td b h
    by_cases he : lowerStr td = ""
    · simp [processObservation, he] at h
    · simp only [processObservation, Option.map_some', Option.getD_some, if_neg he,
        Except.ok.injEq] at h
      subst h
      simp

theorem currentConditions_derivation_witness :
    processObservation (some (some "Light Rain")) = .ok true :=
  currentConditions_derivation.1 "Light Rain" (by decide)

/-! ## C3: retryability by error class -/

/-- Attempt sequence whose first attempt fails with HTTP status 404 and
whose later attempts succeed. -/
def seq404 : Nat → AttemptOutcome :=
  fun n => if n = 0 then .err (.status 404) else .ok false

/-- Attempt sequence whose first attempt fails with the payload-validation
error and whose later attempts succeed. -/
def seqValidation : Nat → AttemptOutcome :=
  fun n => if n = 0 then .err .noDescription else .ok false

/-- C3 counterexample: the claim says a 4xx status other than 429, or a
payload-validation failure, is not retried and fails immediately.  The catch
block of checkCurrentRain retries every caught error while retryCount < 3:
after a first attempt failing with 404 (and likewise with a validation
error) a backoff of 1000 ms is slept and the second attempt runs,
succeeding at attempt index 1 instead of failing immediately. -/
theorem retry_on_4xx_and_validation_cex :
    checkCurrentRainRun seq404 = (.ok false 1, [1000])
    ∧ checkCurrentRainRun seqValidation = (.ok false 1, [1000]) := by
  constructor <;> rfl

/-- C3 amended: the retry policy does not distinguish error classes at all.
On any failed attempt with retries remaining (the guard retryCount < 3 of
the source, fuel positive here) the wrapper sleeps the backoff for that
attempt and retries, whatever the error was: transport, 5xx, 429, other
4xx, or payload validation; in particular any run whose first attempt fails
schedules the 1000 ms backoff rather than failing immediately. -/
theorem retry_all_classes_amended :
    (∀ (outcomes : Nat → AttemptOutcome) (r fuel : Nat) (e : FetchErr),
        outcomes r = .err e →
        runRetries outcomes r (fuel + 1)
          = ((runRetries outcomes (r + 1) fuel).1,
             retryDelayMs r :: (runRetries outcomes (r + 1) fuel).2))
    ∧ (∀ (outcomes : Nat → AttemptOutcome) (e : FetchErr),
        outcomes 0 = .err e →
        (checkCurrentRainRun outcomes).2.head? = some (retryDelayMs 0)) := by
  constructor
  · intro o r fuel e h
    simp [runRetries, h]
  · intro o e h
    simp [checkCurrentRainRun, runRetries, h]

theorem retry_all_classes_amended_witness :
    (checkCurrentRainRun seqValidation).2.head? = some (retryDelayMs 0) :=
  retry_all_classes_amended.2 seqValidation .noDescription rfl

/-! ## C4: bounded attempts and exponential backoff -/

/-- Attempt sequence with transport failures at attempts 0 and 1 and success
at attempt 2. -/
def twoTransportThenOk : Nat → AttemptOutcome :=
  fun n => if n < 2 then .err .transport else .ok true

lemma runRetries_attempt_le (o : Nat → AttemptOutcome) :
    ∀ fuel r, attemptsOf (runRetries o r fuel).1 ≤ r + fuel + 1 := by
  intro fuel
  induction fuel with
  | zero =>
    intro r
    cases h : o r <;> simp [runRetries, h, attemptsOf]
  | succ n ih =>
    intro r
    cases h : o r with
    | ok b => simp [runRetries, h, attemptsOf]
    | err e =>
      simp only [runRetries, h]
      calc attemptsOf (runRetries o (r + 1) n).1 ≤ (r + 1) + n + 1 := ih (r + 1)
        _ ≤ r + (n + 1) + 1 := by omega

lemma runRetries_delays_shape (o : Nat → AttemptOutcome) :
    ∀ fuel r, ∃ m, m ≤ fuel ∧
      (runRetries o r fuel).2 = (List.range' r m).map retryDelayMs := by
  intro fuel
  induction fuel with
  | zero =>
    intro r
    exact ⟨0, Nat.le_refl 0, by cases h : o r <;> simp [runRetries, h]⟩
  | succ n ih =>
    intro r
    cases h : o r with
    | ok b => exact ⟨0, Nat.zero_le _, by simp [runRetries, h]⟩
    | err e =>
      obtain ⟨m, hm, he⟩ := ih (r + 1)
      refine ⟨m + 1, by omega, ?_⟩
      simp [runRetries, h, he, List.range'_succ]

/-- C4: every run of the retry-wrapped fetch makes at most 4 attempts; the
backoff delays slept are exactly 2 to the power n seconds (1000 ms times
2 to the n) for the consecutive failed attempt indices n = 0, 1, ...; and a
run failing twice with a transport error then succeeding returns the derived
state at attempt index 2, having made 3 of at most 4 attempts with delays
1000 ms and 2000 ms. -/
theorem retry_bounded_attempts_backoff :
    (∀ outcomes : Nat → AttemptOutcome,
        attemptsOf (checkCurrentRainRun outcomes).1 ≤ 4)
    ∧ (∀ outcomes : Nat → AttemptOutcome, ∃ m, m ≤ 3 ∧
        (checkCurrentRainRun outcomes).2 = (List.range m).map retryDelayMs)
    ∧ checkCurrentRainRun twoTransportThenOk = (.ok true 2, [1000, 2000])
    ∧ attemptsOf (checkCurrentRainRun twoTransportThenOk).1 = 3 := by
  refine ⟨fun o => ?_, fun o => ?_, rfl, rfl⟩
  · simpa [checkCurrentRainRun] using runRetries_attempt_le o 3 0
  · obtain ⟨m, hm, he⟩ := runRetries_delays_shape o 3 0
    exact ⟨m, hm, by simpa [checkCurrentRainRun, List.range_eq_range'] using he⟩

/-! ## C5: poll interval minimums -/

/-- C5 counterexample: the claim says an interval below the per-source
minimum (15 minutes for RecentRainfall, 1 minute for CurrentConditions)
fails configuration with InvalidConfig and no poll job is created.  The
setup functions perform no validation: a 1-minute RecentRainfall interval
and a half-minute CurrentConditions interval are both accepted as given,
the jobs are stored and the first check fires, with interval milliseconds
strictly below the claimed minimums. -/
theorem pollInterval_no_validation_cex :
    (startPreviousRainPollingModel (some 1)).jobStored = true
    ∧ (startPreviousRainPollingModel (some 1)).intervalMs = 60000
    ∧ (60000 : ℚ) < 15 * 60 * 1000
    ∧ (startCurrentRainPollingModel (some (1/2))).jobStored = true
    ∧ (startCurrentRainPollingModel (some (1/2))).intervalMs = 30000
    ∧ (30000 : ℚ) < 1 * 60 * 1000 := by
  refine ⟨rfl, ?_, by norm_num, rfl, ?_, by norm_num⟩
  · norm_num [startPreviousRainPollingModel, jsOrDefault]
  · norm_num [startCurrentRainPollingModel, jsOrDefault]

/-- C5 amended: no interval validation, rejection or clamping exists.  Any
nonzero configured interval is accepted exactly as given (scaled from
minutes to milliseconds), a missing or zero interval falls back to the
defaults (60 minutes for RecentRainfall, 5 for CurrentConditions), and in
every case the poll job is created and the immediate first check fires. -/
theorem pollInterval_accepted_amended :
    (∀ v : ℚ, v ≠ 0 →
        (startPreviousRainPollingModel (some v)).intervalMs = v * 60 * 1000
        ∧ (startPreviousRainPollingModel (some v)).jobStored = true
        ∧ (startCurrentRainPollingModel (some v)).intervalMs = v * 60 * 1000)
    ∧ (startPreviousRainPollingModel none).intervalMs = 60 * 60 * 1000
    ∧ (startCurrentRainPollingModel none).intervalMs = 5 * 60 * 1000
    ∧ (∀ v : Option ℚ,
        (startPreviousRainPollingModel v).jobStored = true
        ∧ (startCurrentRainPollingModel v).jobStored = true
        ∧ (startPreviousRainPollingModel v).immediateFirstCheck = true
        ∧ (startCurrentRainPollingModel v).immediateFirstCheck = true) := by
  refine ⟨?_, rfl, rfl, fun v => ⟨rfl, rfl, rfl, rfl⟩⟩
  intro v hv
  refine ⟨?_, rfl, ?_⟩ <;>
    simp [startPreviousRainPollingModel, startCurrentRainPollingModel, jsOrDefault, hv]

theorem pollInterval_accepted_amended_witness :
    (startPreviousRainPollingModel (some 1)).intervalMs = 1 * 60 * 1000
    ∧ (startPreviousRainPollingModel (some 1)).jobStored = true
    ∧ (startCurrentRainPollingModel (some 1)).intervalMs = 1 * 60 * 1000 :=
  pollInterval_accepted_amended.1 1 (by simp)

/-! ## C6: failed cycles are frame-preserving -/

/-- C6: a fetch-and-derive cycle that fails leaves the stored state, the
notification count and the armed timer untouched and only logs the failure;
no cycle ever disarms the timer; and a failing cycle does not affect the
outcome of the next scheduled cycle, which still derives and stores
normally. -/
theorem failedCycle_frame :
    (∀ (st : PrevPlatformState) (th1 th2 : ℚ) (y dby tda : String) (e : FetchErr),
        prevCycleNest st th1 th2 y dby tda (.error e)
          = { st with logs := st.logs + 1 })
    ∧ (∀ (st : PrevPlatformState) (th1 th2 : ℚ) (y dby tda : String)
        (f : Except FetchErr (List (String × AcisValue))),
        (prevCycleNest st th1 th2 y dby tda f).timerArmed = st.timerArmed)
    ∧ (∀ (st : PrevPlatformState) (th1 th2 : ℚ) (y dby tda : String) (e : FetchErr)
        (rows : List (String × AcisValue)),
        (runPrevCycles th1 th2 y dby tda st [.error e, .ok rows]).previousRainState
          = (prevCycleNest st th1 th2 y dby tda (.ok rows)).previousRainState
        ∧ (runPrevCycles th1 th2 y dby tda st [.error e, .ok rows]).notifCount
          = (prevCycleNest st th1 th2 y dby tda (.ok rows)).notifCount) := by
  refine ⟨fun st th1 th2 y dby tda e => rfl, ?_, fun st th1 th2 y dby tda e rows => ⟨rfl, rfl⟩⟩
  intro st th1 th2 y dby tda f
  cases f <;> rfl

/-! ## C7: change-only notification -/

/-- C7 counterexample: the claim says observers are notified exactly when
the derived state differs from the stored one or the cycle is the first
successful one.  The stored platform state is initialised to false, not to
none: two successful cycles both deriving false produce zero notifications,
while the claimed rule predicts one (for the first cycle). -/
theorem changeOnly_firstCycle_cex :
    (runCurrentDerivedNest ⟨false, 0⟩ [false, false]).notifCount = 0
    ∧ claimNotifCount none [false, false] = 1
    ∧ (runCurrentDerivedNest ⟨false, 0⟩ [false, false]).notifCount
        ≠ claimNotifCount none [false, false] := by
  refine ⟨rfl, rfl, by decide⟩

/-- C7 amended: notification is strictly change-driven against a stored
state initialised to false; there is no first-cycle rule.  A successful
cycle notifies exactly when the derived value differs from the stored one,
and two consecutive successful cycles deriving the same value produce one
notification when that value differs from the initial stored value and zero
when it equals it, never two. -/
theorem changeOnly_notification_amended :
    (∀ (st : CurrentPlatformState) (d : Bool),
        (currentStepNest st d).notifCount
          = st.notifCount + (if st.currentRainState != d then 1 else 0)
        ∧ (currentStepNest st d).currentRainState = d)
    ∧ (∀ init v : Bool,
        (runCurrentDerivedNest ⟨init, 0⟩ [v, v]).notifCount
          = if init != v then 1 else 0)
    ∧ (∀ init v : Bool,
        (runCurrentDerivedNest ⟨init, 0⟩ [v, v]).notifCount ≤ 1) := by
  refine ⟨fun st d => ⟨rfl, rfl⟩, fun init v => ?_, fun init v => ?_⟩
  · cases init <;> cases v <;> rfl
  · cases init <;> cases v <;> decide

/-! ## C8: stop semantics -/

/-- C8 counterexample: the claim says that after stop is requested no
further state update or notification occurs, with in-flight cycles allowed
to complete but their results discarded.  Nothing in the source discards
such a result: unload only clears the interval, and the code after the
await applies the update unconditionally.  In the trace tick, stop,
complete true a cycle starts, stop disarms the timer, and the completion
still stores true and fires a notification, while the trace up to the stop
had fired none. -/
theorem stop_inflight_cex :
    schedRun ⟨true, false, false, 0⟩ [.tick, .stop, .complete true]
      = ⟨false, false, true, 1⟩
    ∧ (schedRun ⟨true, false, false, 0⟩ [.tick, .stop]).notifCount = 0 := by
  decide

/-- C8 amended: stop cancels the timer, so no new cycle starts afterwards
(ticks against a disarmed timer change nothing, in any number) and stop is
idempotent; but the result of a fetch-plus-retry sequence already in flight
when stop was requested is not discarded: its completion still stores the
derived value and notifies on change. -/
theorem stop_semantics_amended :
    (∀ s : SchedState, schedStep s .stop = { s with timerArmed := false })
    ∧ (∀ (fl st : Bool) (nc : Nat),
        schedStep ⟨false, fl, st, nc⟩ .tick = ⟨false, fl, st, nc⟩)
    ∧ (∀ (st : Bool) (nc : Nat) (d : Bool),
        schedStep ⟨false, true, st, nc⟩ (.complete d)
          = ⟨false, false, d, nc + (if st != d then 1 else 0)⟩)
    ∧ (∀ (n : Nat) (fl st : Bool) (nc : Nat),
        (schedRun ⟨false, fl, st, nc⟩ (List.replicate n .tick)).notifCount = nc)
    ∧ (∀ s : SchedState, schedStep (schedStep s .stop) .stop = schedStep s .stop) := by
  refine ⟨fun s => rfl, fun fl st nc => rfl, fun st nc d => rfl, ?_, fun s => rfl⟩
  intro n
  induction n with
  | zero => intro fl st nc; rfl
  | succ k ih =>
    intro fl st nc
    simpa [schedRun, List.replicate_succ, schedStep] using ih fl st nc

/-! ## C9: local versus UTC calendar days -/

/-- C9: the claim states the correctness-critical rule that the requested
date range is computed from local calendar days, never UTC days, and the
Nest variant both implements this and carries the comment that local
components avoid UTC conversion issues; but the IndexPlatform variant
formats the shifted timestamps with toISOString, which yields UTC days.  At
the failing input, 30 minutes after local midnight of local day 100 in a
UTC+10 zone (timestamp 143430 minutes, offset 600), the IndexPlatform
variant requests the range (97, 98), its end date 98 differs from the local
yesterday 99 and equals the UTC yesterday, exactly what the claim says never
happens; the Nest variant ends the range on the local yesterday for every
timestamp and offset. -/
theorem recentRainfall_utcDates_bug :
    prevRainDatesLegacy 143430 = (97, 98)
    ∧ localDayOfMin 143430 600 - 1 = 99
    ∧ (prevRainDatesLegacy 143430).2 ≠ localDayOfMin 143430 600 - 1
    ∧ (prevRainDatesLegacy 143430).2 = utcDayOfMin 143430 - 1
    ∧ (∀ ts tz : Int, (prevRainDatesLocal ts tz).2 = localDayOfMin ts tz - 1) := by
  refine ⟨by decide, by decide, by decide, by decide, fun ts tz => rfl⟩

/-! ## C10: leftover testing overrides -/

/-- C10: in the sensor-platform variants every successful cycle ends with a
hardcoded state regardless of the payload.  The IndexPlatform
checkCurrentRain always leaves the current-rain state false even on a
payload that derives rain, and its checkPreviousRain always leaves the
contact state 1; the per-accessory sensor variant likewise forces false and
true after deriving; and the third variant returns the constants true and 1
from the accessory getters whatever the platform state holds. -/
theorem testing_overrides_hardcode_state :
    (∀ sf : Option String, (checkCurrentRainLegacyWrites sf).2 = false)
    ∧ (checkCurrentRainLegacyWrites (some "Light Rain")).1 = true
    ∧ (∀ (th1 th2 : ℚ) (y dby : String) (rows : List (String × AcisValue)),
        (checkPreviousRainLegacyWrites th1 th2 y dby rows).2 = 1)
    ∧ (∀ (p : Option (Option String)) (r : Bool × Bool),
        checkCurrentRainAccessoryWrites p = some r → r.2 = false)
    ∧ (∀ (th1 th2 : ℚ) (y dby : String) (rows : List (String × AcisValue)),
        (checkPreviousRainAccessoryWrites th1 th2 y dby rows).2 = true)
    ∧ (∀ b : Bool, getCurrentRainStateTest b = true)
    ∧ (∀ n : Nat, getPreviousRainStateTest n = 1) := by
  refine ⟨fun sf => rfl, rfl, fun th1 th2 y dby rows => rfl, ?_,
    fun th1 th2 y dby rows => rfl, fun b => rfl, fun n => rfl⟩
  intro p r h
  unfold checkCurrentRainAccessoryWrites at h
  cases hp : processObservation p <;> rw [hp] at h
  · exact absurd h (by simp)
  · injection h with h1
    subst h1
    rfl

theorem testing_overrides_hardcode_state_witness :
    ((true, false) : Bool × Bool).2 = false :=
  testing_overrides_hardcode_state.2.2.2.1 (some (some "Rain")) (true, false) rfl
